import Mathlib

/-!
Verification of the hierarchical SAP tool registry and destination service:
a shallow embedding of the discovery engine (`searchServicesAndEntities`,
`performCategorySearch`, `matchesQuery`, `convertToMappingTable`), the CRUD
dispatcher (`executeEntityOperation`, `buildKeyValue`) and the destination
resolver (`getDiscoveryDestination`, `getDestination`), together with proofs
of the specified properties.

Conventions of the embedding:
* JavaScript strings are Lean `String`s; `toLowerCase` is mapped over the
  character list (ASCII case mapping, which covers all identifiers involved).
* JavaScript numbers that the code treats as integers are `Int`/`Nat`;
  relevance scores (0.5, 0.7, 0.75, 0.85, 0.9, 0.95) are scaled by 100 to
  `Nat` (50, 70, 75, 85, 90, 95), which preserves their exact ordering.
* JavaScript objects used as string-keyed records are association lists;
  heterogeneous values (strings or numbers) are the `JsVal` type.
* `Array.prototype.sort` (stable per the ECMAScript specification) is
  modelled with a stable insertion sort (`sortByScoreDesc`).
* Exceptions are `Except`; calls on the external SAP entity client are
  recorded in an explicit trace (`ClientCall`).
-/

/-- JavaScript value as used in `parameters` / `queryOptions` objects:
either a string or a number. -/
inductive JsVal where
  | str (s : String)
  | num (n : Int)
deriving DecidableEq, Repr

/-- `String(v)` in JavaScript, for the values we model. -/
def JsVal.render : JsVal → String
  | .str s => s
  | .num n => toString n

/-- JavaScript truthiness of a value (`""` and `0` are falsy). -/
def JsVal.truthy : JsVal → Bool
  | .str s => s ≠ ""
  | .num n => n ≠ 0

/-- Truthiness of an optional string (`undefined` and `""` are falsy). -/
def jsStrTruthy : Option String → Bool
  | none => false
  | some s => s ≠ ""

/-- Truthiness of an optional number (`undefined` and `0` are falsy). -/
def jsNumTruthy : Option Int → Bool
  | none => false
  | some n => n ≠ 0

/-- ASCII lower-casing of one character, as `Char.toLower` / the relevant
fragment of JavaScript `toLowerCase`. -/
def jsCharLower (c : Char) : Char := Char.toLower c

/-- `s.toLowerCase()`: lower-case every character. -/
def jsToLower (s : String) : String := ⟨s.data.map jsCharLower⟩

/-- Does `l` contain `sub` as a contiguous sublist (substring test on
character lists)? -/
def charsContain (sub : List Char) : List Char → Bool
  | [] => sub.isEmpty
  | c :: rest => sub.isPrefixOf (c :: rest) || charsContain sub rest

/-- `text.includes(sub)` of JavaScript. -/
def strIncludes (text sub : String) : Bool := charsContain sub.data text.data

/-- Helper for `splitWords`: split a character list at whitespace, dropping
empty fragments; `acc` is the current word, reversed. -/
def splitWsAux : List Char → List Char → List (List Char)
  | [], acc => if acc.isEmpty then [] else [acc.reverse]
  | c :: rest, acc =>
    if c.isWhitespace then
      if acc.isEmpty then splitWsAux rest []
      else acc.reverse :: splitWsAux rest []
    else splitWsAux rest (c :: acc)

/-- `query.split(/\s+/).filter(w => w.length > 0)`: the whitespace-separated
words of the query. -/
def splitWords (q : String) : List String :=
  (splitWsAux q.data []).map (fun cs => ⟨cs⟩)

/-- `list.slice(0, n)` of JavaScript: a negative `n` counts from the end. -/
def jsSlice (l : List α) (n : Int) : List α :=
  if 0 ≤ n then l.take n.toNat else l.take (l.length - (-n).toNat)

/-- Association-list read of a JavaScript object property. -/
def jsObjGet (o : List (String × JsVal)) (k : String) : Option JsVal :=
  (o.find? (fun kv => kv.1 = k)).map (fun kv => kv.2)

/-- `key in object`. -/
def jsObjHas (o : List (String × JsVal)) (k : String) : Bool :=
  o.any (fun kv => kv.1 = k)

/-- Property write on a JavaScript object: overwrite in place when the key
exists (JavaScript keeps the original insertion position), append otherwise. -/
def jsObjSet (o : List (String × JsVal)) (k : String) (v : JsVal) :
    List (String × JsVal) :=
  if jsObjHas o k then o.map (fun kv => if kv.1 = k then (k, v) else kv)
  else o ++ [(k, v)]

/-- `Property` of the catalog data model (`sap-types`). -/
structure SapProperty where
  name : String
  type : String
  nullable : Bool
  maxLength : Option Nat
deriving DecidableEq, Repr

/-- `EntityType` of the catalog data model. -/
structure SapEntityType where
  name : String
  entitySet : String
  namespc : String
  keys : List String
  properties : List SapProperty
  creatable : Bool
  updatable : Bool
  deletable : Bool
deriving DecidableEq, Repr

/-- `ODataService` of the catalog data model; `entityTypes` stands for
`service.metadata?.entityTypes`, with a missing metadata block embedded as
the empty list. -/
structure ODataService where
  id : String
  title : String
  description : String
  url : String
  entityTypes : List SapEntityType
deriving DecidableEq, Repr

/-- One keyword test of `categorizeServices`: does any of the substrings
occur in the lower-cased field? -/
def anyIncl (text : String) (subs : List String) : Bool :=
  subs.any (fun sub => strIncludes text sub)

/-- `categorizeServices` for a single service (the per-service body of the
constructor loop): keyword heuristics over lower-cased `id`, `title`,
`description`, with `["all"]` when nothing matched. -/
def categorizeService (s : ODataService) : List String :=
  let id := jsToLower s.id
  let title := jsToLower s.title
  let desc := jsToLower s.description
  let categories :=
    (if anyIncl id ["business_partner", "bp_", "customer", "supplier"] ||
        anyIncl title ["business partner", "customer", "supplier"] then
      ["business-partner"] else []) ++
    (if anyIncl id ["sales", "order", "quotation", "opportunity"] ||
        anyIncl title ["sales", "order"] || anyIncl desc ["sales"] then
      ["sales"] else []) ++
    (if anyIncl id ["finance", "accounting", "payment", "invoice", "gl_", "ar_", "ap_"] ||
        anyIncl title ["finance", "accounting", "payment"] then
      ["finance"] else []) ++
    (if anyIncl id ["purchase", "procurement", "vendor", "po_"] ||
        anyIncl title ["procurement", "purchase", "vendor"] then
      ["procurement"] else []) ++
    (if anyIncl id ["employee", "hr_", "personnel", "payroll"] ||
        anyIncl title ["employee", "human", "personnel"] then
      ["hr"] else []) ++
    (if anyIncl id ["logistics", "warehouse", "inventory", "material", "wm_", "mm_"] ||
        anyIncl title ["logistics", "material"] then
      ["logistics"] else [])
  if categories.isEmpty then ["all"] else categories

/-- `this.serviceCategories.get(id) || []`: the category map is filled by
iterating the catalog, so for duplicate ids the last write wins. -/
def serviceCategoriesGet (services : List ODataService) (id : String) :
    List String :=
  match (services.filter (fun s => s.id = id)).getLast? with
  | some s => categorizeService s
  | none => []

/-- The two matching modes of `matchesQuery`. -/
inductive SearchMode where
  | combined
  | separated
deriving DecidableEq, Repr

/-- `matchesQuery(text, query, searchMode)`. -/
def matchesQuery (text query : String) (mode : SearchMode) : Bool :=
  if query = "" then false
  else
    let textLower := jsToLower text
    match mode with
    | .combined => strIncludes textLower query
    | .separated =>
      match splitWords query with
      | [] => false
      | [w] => strIncludes textLower w
      | ws => ws.all (fun w => strIncludes textLower w)

/-- Entity capability summary as assembled into each match. -/
structure Capabilities where
  readable : Bool
  creatable : Bool
  updatable : Bool
  deletable : Bool
deriving DecidableEq, Repr

/-- Per-property record inside a match (`entity.properties.map(...)`). -/
structure PropInfo where
  name : String
  type : String
  nullable : Bool
  maxLength : Option Nat
  isKey : Bool
deriving DecidableEq, Repr

/-- Full entity record inside a match (the object literal built both for
service-level matches and entity-level matches). -/
structure EntityInfo where
  name : String
  entitySet : String
  keyProperties : List String
  propertyCount : Nat
  capabilities : Capabilities
  properties : List PropInfo
deriving DecidableEq, Repr

/-- The entity record built from a catalog entity type (identical literal at
both construction sites in `performCategorySearch`). -/
def entityToInfo (e : SapEntityType) : EntityInfo where
  name := e.name
  entitySet := e.entitySet
  keyProperties := e.keys
  propertyCount := e.properties.length
  capabilities :=
    { readable := true
      creatable := e.creatable
      updatable := e.updatable
      deletable := e.deletable }
  properties := e.properties.map (fun p =>
    { name := p.name
      type := p.type
      nullable := p.nullable
      maxLength := p.maxLength
      isKey := e.keys.contains p.name })

/-- `match.type` of a search match. -/
inductive MatchType where
  | service
  | entity
  | property
deriving DecidableEq, Repr

/-- The service reference embedded in a match. -/
structure SvcRef where
  id : String
  title : String
deriving DecidableEq, Repr

/-- One element of the `matches` array of `performCategorySearch`. Service
matches carry `entities`; entity/property matches carry `entity`. -/
structure SearchMatch where
  type : MatchType
  score : Nat
  service : SvcRef
  entities : List EntityInfo
  entity : Option EntityInfo
  matchReason : String
deriving DecidableEq, Repr

/-- The service-level score of `performCategorySearch` (0 when the query is
empty or nothing matched; otherwise 90/85/70 for id/title/description). -/
def serviceScoreOf (s : ODataService) (query : String) (mode : SearchMode) :
    Nat :=
  if query = "" then 0
  else if matchesQuery (jsToLower s.id) query mode then 90
  else if matchesQuery (jsToLower s.title) query mode then 85
  else if matchesQuery (jsToLower s.description) query mode then 70
  else 0

/-- The property names of an entity matching the query (the
`matchedProperties` accumulator of the inner loop). -/
def matchedPropertiesOf (e : SapEntityType) (query : String)
    (mode : SearchMode) : List String :=
  (e.properties.filter (fun p =>
    matchesQuery (jsToLower p.name) query mode)).map (fun p => p.name)

/-- The entity-level score: 95 on an entity-name match, else 75 when some
property name matches (the first matching property sets the score), else
0. -/
def entityScoreOf (e : SapEntityType) (query : String) (mode : SearchMode) :
    Nat :=
  if matchesQuery (jsToLower e.name) query mode then 95
  else if matchedPropertiesOf e query mode ≠ [] then 75
  else 0

/-- The entity-level match one entity contributes (pushed only when its
score is positive). -/
def entityMatchOf (s : ODataService) (query : String) (mode : SearchMode)
    (e : SapEntityType) : Option SearchMatch :=
  if entityScoreOf e query mode = 0 then none
  else some
    { type := if entityScoreOf e query mode ≥ 90 then .entity else .property
      score := entityScoreOf e query mode
      service := { id := s.id, title := s.title }
      entities := []
      entity := some (entityToInfo e)
      matchReason :=
        if entityScoreOf e query mode ≥ 90 then
          "Entity '" ++ e.name ++ "' matches '" ++ query ++ "'"
        else
          "Properties [" ++
            String.intercalate ", " (matchedPropertiesOf e query mode) ++
            "] match '" ++ query ++ "'" }

/-- The entity-level matches contributed by one service (the inner
`for (const entity of service.metadata.entityTypes)` loop; it only runs when
the query is non-empty). -/
def entityMatchesOf (s : ODataService) (query : String) (mode : SearchMode) :
    List SearchMatch :=
  if query = "" then []
  else s.entityTypes.filterMap (entityMatchOf s query mode)

/-- The matches contributed by one service: the optional service-level match
followed by the entity-level matches, in push order. -/
def serviceBlockOf (services : List ODataService) (s : ODataService)
    (query category : String) (mode : SearchMode) : List SearchMatch :=
  if category ≠ "all" ∧ ¬ (serviceCategoriesGet services s.id).contains category
  then []
  else
    let serviceScore := serviceScoreOf s query mode
    let svcPart : List SearchMatch :=
      if serviceScore > 0 ∨ query = "" then
        [{ type := .service
           score := if serviceScore = 0 then 50 else serviceScore
           service := { id := s.id, title := s.title }
           entities := s.entityTypes.map entityToInfo
           entity := none
           matchReason :=
             if serviceScore > 0 then "Service matches '" ++ query ++ "'"
             else "Service in category '" ++ category ++ "'" }]
      else []
    svcPart ++ entityMatchesOf s query mode

/-- `performCategorySearch(query, category, searchMode)`: scan the catalog in
order, skipping services outside the category, and collect service- and
entity-level matches. -/
def performCategorySearch (services : List ODataService)
    (query category : String) (mode : SearchMode) : List SearchMatch :=
  services.flatMap (fun s => serviceBlockOf services s query category mode)

/-- One row of the flat mapping table. -/
structure MappingRow where
  serviceId : String
  serviceName : String
  entityName : String
  entitySet : String
  propertyName : String
  propertyType : String
  isKey : Bool
  nullable : Bool
  maxLength : String
  capabilities : String
deriving DecidableEq, Repr

/-- The `R:_ C:_ U:_ D:_` capabilities summary string. -/
def capabilitiesText (c : Capabilities) : String :=
  let yn : Bool → String := fun b => if b then "Y" else "N"
  "R:" ++ yn c.readable ++ " C:" ++ yn c.creatable ++ " U:" ++ yn c.updatable
    ++ " D:" ++ yn c.deletable

/-- `prop.maxLength || 'N/A'` (a zero length is falsy in JavaScript). -/
def maxLengthText : Option Nat → String
  | some n => if n = 0 then "N/A" else toString n
  | none => "N/A"

/-- The mapping row pushed for one property of one matched entity. -/
def mkMappingRow (svc : SvcRef) (e : EntityInfo) (p : PropInfo) : MappingRow where
  serviceId := svc.id
  serviceName := svc.title
  entityName := e.name
  entitySet := e.entitySet
  propertyName := p.name
  propertyType := p.type
  isKey := p.isKey
  nullable := p.nullable
  maxLength := maxLengthText p.maxLength
  capabilities := capabilitiesText e.capabilities

/-- The entity records a match contributes to the mapping table: all
`entities` of a service-level match, the single `entity` of an entity- or
property-level match. -/
def matchEntities (m : SearchMatch) : List EntityInfo :=
  if m.type = .service then m.entities else m.entity.toList

/-- `convertToMappingTable(matches)`: one row per property of every entity of
every match. -/
def convertToMappingTable (ms : List SearchMatch) : List MappingRow :=
  ms.flatMap (fun m =>
    (matchEntities m).flatMap (fun e =>
      e.properties.map (fun p => mkMappingRow m.service e p)))

/-- The arguments of a `discover-sap-data` call. -/
structure DiscoverArgs where
  query : Option String
  category : Option String
  limit : Option Int
deriving DecidableEq, Repr

/-- The enumerated valid categories. -/
def validCategories : List String :=
  ["business-partner", "sales", "finance", "procurement", "hr", "logistics",
   "all"]

/-- `(args.query as string)?.toLowerCase() || ""`. -/
def argQuery (args : DiscoverArgs) : String := jsToLower (args.query.getD "")

/-- `(args.category as string)?.toLowerCase() || "all"`. -/
def argRequestedCategory (args : DiscoverArgs) : String :=
  let rc := jsToLower (args.category.getD "")
  if rc = "" then "all" else rc

/-- The category after validation against the enumerated set (any
unrecognized value silently becomes `all`). -/
def validatedCategory (args : DiscoverArgs) : String :=
  if validCategories.contains (argRequestedCategory args) then
    argRequestedCategory args
  else "all"

/-- `(args.limit as number) || 10`. -/
def argLimit (args : DiscoverArgs) : Int :=
  match args.limit with
  | none => 10
  | some l => if l = 0 then 10 else l

/-- Insertion step of the stable descending sort: the element is placed
before the first already-sorted element of strictly smaller score, hence
after all elements of equal score that preceded it in the original list. -/
def insertByScoreDesc (m : SearchMatch) :
    List SearchMatch → List SearchMatch
  | [] => [m]
  | x :: xs =>
    if m.score < x.score then x :: insertByScoreDesc m xs
    else m :: x :: xs

/-- The model of `matches.sort((a, b) => b.score - a.score)`:
`Array.prototype.sort` is stable per the ECMAScript specification, and a
stable sort's output is uniquely determined by the ordering and the input,
so this stable insertion sort is extensionally that sort. -/
def sortByScoreDesc (l : List SearchMatch) : List SearchMatch :=
  l.foldr insertByScoreDesc []

/-- The result record assembled by `searchServicesAndEntities`, enriched with
the pre-sort match list and with flags recording which fallback tiers ran. -/
structure SearchOutcome where
  query : String
  requestedCategory : String
  actualCategory : String
  searchMode : SearchMode
  usedCategoryFallback : Bool
  usedSeparatedWords : Bool
  returnedAllServices : Bool
  totalFound : Nat
  totalProperties : Nat
  showing : Nat
  rawMatches : List SearchMatch
  sortedMatches : List SearchMatch
  limitedMatches : List SearchMatch
  mappingTable : List MappingRow
  tier2Fired : Bool
  tier3Fired : Bool
  tier4Fired : Bool
deriving DecidableEq, Repr

/-- `searchServicesAndEntities(args)`: category validation, the four-tier
fallback, stable sort by descending score, truncation to the limit and
flattening into the mapping table. -/
def searchServicesAndEntities (services : List ODataService)
    (args : DiscoverArgs) : SearchOutcome :=
  let query := argQuery args
  let requestedCategory := argRequestedCategory args
  let limit := argLimit args
  let category0 := validatedCategory args
  let m1 := performCategorySearch services query category0 .combined
  let tier2 := m1.isEmpty && query ≠ "" && strIncludes query " "
  let m2 :=
    if tier2 then performCategorySearch services query category0 .separated
    else m1
  let mode2 : SearchMode := if tier2 then .separated else .combined
  let tier3 := m2.isEmpty && category0 ≠ "all" && query ≠ ""
  let category := if tier3 then "all" else category0
  let m3a :=
    if tier3 then performCategorySearch services query "all" .combined else m2
  let tier3b := tier3 && m3a.isEmpty && strIncludes query " "
  let m3 :=
    if tier3b then performCategorySearch services query "all" .separated
    else m3a
  let mode3 : SearchMode :=
    if tier3 then (if tier3b then .separated else .combined) else mode2
  let usedSep : Bool := if tier3 then tier3b else tier2
  let tier4 := m3.isEmpty && query ≠ ""
  let m4 :=
    if tier4 then performCategorySearch services "" category .combined else m3
  let sorted := sortByScoreDesc m4
  let totalFound := sorted.length
  let limitedMatches := jsSlice sorted limit
  let mappingTable := convertToMappingTable limitedMatches
  { query := if query = "" then "all" else query
    requestedCategory := requestedCategory
    actualCategory := category
    searchMode := mode3
    usedCategoryFallback := tier3 || tier4
    usedSeparatedWords := usedSep
    returnedAllServices := tier4
    totalFound := totalFound
    totalProperties := mappingTable.length
    showing := limitedMatches.length
    rawMatches := m4
    sortedMatches := sorted
    limitedMatches := limitedMatches
    mappingTable := mappingTable
    tier2Fired := tier2
    tier3Fired := tier3
    tier4Fired := tier4 }

/-- The declared input schema of `discover-sap-data`
(`limit: z.number().min(1).max(20).optional()`): the transport validates,
and rejects, out-of-range limits before the handler runs. -/
def discoverArgsValid (args : DiscoverArgs) : Bool :=
  match args.limit with
  | none => true
  | some l => 1 ≤ l && l ≤ 20

/-- A full `discover-sap-data` call: schema validation followed by the
handler. -/
def discoverCall (services : List ODataService) (args : DiscoverArgs) :
    Except String SearchOutcome :=
  if discoverArgsValid args then .ok (searchServicesAndEntities services args)
  else .error "Invalid arguments: limit must be between 1 and 20"

/-- A call on the external SAP client. `setUserToken` is pure client-state
configuration; the other five constructors are the network operations of the
entity client. -/
inductive ClientCall where
  | setUserToken (token : Option String)
  | readEntitySet (url entitySet : String)
      (queryOptions : List (String × JsVal)) (flag : Bool)
  | readEntity (url entitySet key : String) (flag : Bool)
  | createEntity (url entitySet : String) (payload : List (String × JsVal))
  | updateEntity (url entitySet key : String)
      (payload : List (String × JsVal))
  | deleteEntity (url entitySet key : String)
deriving DecidableEq, Repr

/-- Is the client call an actual network operation of the entity client? -/
def ClientCall.isNetwork : ClientCall → Bool
  | .setUserToken _ => false
  | _ => true

/-- Outcome of `executeEntityOperation`: a success response (carrying the
operation description of the success text) or the error text of an
`isError` response. -/
inductive ExecOutcome where
  | success (operationDescription : String)
  | error (text : String)
deriving DecidableEq, Repr

/-- The arguments of an `execute-sap-operation` call. -/
structure ExecuteArgs where
  serviceId : String
  entityName : String
  operation : String
  parameters : List (String × JsVal)
  filterString : Option String
  selectString : Option String
  expandString : Option String
  orderbyString : Option String
  topNumber : Option Int
  skipNumber : Option Int
  queryOptions : List (String × JsVal)
  useUserToken : Option Bool
deriving DecidableEq, Repr

/-- The enumerated valid operations. -/
def validOperations : List String :=
  ["read", "read-single", "create", "update", "delete"]

/-- `buildKeyValue(entityType, parameters)`: single keys return the raw
stringified value, composite keys render `name='value'` parts joined by
commas; a missing key raises the `Missing required key property` error. -/
def missingKeyMsg (n : String) (keys : List String) : String :=
  "Missing required key property: " ++ n ++ ". Required keys: " ++
    String.intercalate ", " keys

/-- `String(parameters[name])`: the stringified parameter value. -/
def paramRender (params : List (String × JsVal)) (n : String) : String :=
  ((jsObjGet params n).getD (.str "undefined")).render

def buildKeyValue (e : SapEntityType) (params : List (String × JsVal)) :
    Except String String :=
  let keyProperties := e.properties.filter (fun p => e.keys.contains p.name)
  match keyProperties with
  | [kp] =>
    if jsObjHas params kp.name then .ok (paramRender params kp.name)
    else .error (missingKeyMsg kp.name e.keys)
  | kps =>
    (kps.mapM (fun p =>
      if jsObjHas params p.name then
        Except.ok (p.name ++ "='" ++ paramRender params p.name ++ "'")
      else Except.error (missingKeyMsg p.name e.keys))).map
        (String.intercalate ",")

/-- The `queryOptions` object assembled from the flattened parameters and
then overlaid with the legacy `queryOptions` object. -/
def buildQueryOptions (args : ExecuteArgs) : List (String × JsVal) :=
  let o : List (String × JsVal) := []
  let o := if jsStrTruthy args.filterString then
    jsObjSet o "$filter" (.str (args.filterString.getD "")) else o
  let o := if jsStrTruthy args.selectString then
    jsObjSet o "$select" (.str (args.selectString.getD "")) else o
  let o := if jsStrTruthy args.expandString then
    jsObjSet o "$expand" (.str (args.expandString.getD "")) else o
  let o := if jsStrTruthy args.orderbyString then
    jsObjSet o "$orderby" (.str (args.orderbyString.getD "")) else o
  let o := if jsNumTruthy args.topNumber then
    jsObjSet o "$top" (.num (args.topNumber.getD 0)) else o
  let o := if jsNumTruthy args.skipNumber then
    jsObjSet o "$skip" (.num (args.skipNumber.getD 0)) else o
  args.queryOptions.foldl (fun acc kv => jsObjSet acc kv.1 kv.2) o

/-- The error text returned when `serviceId` resolves to no service,
including the `title`-instead-of-`id` correction. -/
def serviceNotFoundText (services : List ODataService) (serviceId : String) :
    String :=
  let head := "ERROR: Service not found: " ++ serviceId ++ "\n\n"
  match services.find? (fun s => jsToLower s.title = jsToLower serviceId) with
  | some sbt =>
    head ++ "WARNING: It looks like you used the 'title' field instead of " ++
      "the 'id' field!\n" ++
      "CORRECTION: Use this serviceId instead: " ++ sbt.id ++ "\n\n" ++
      "Remember: Always use the 'id' field from discover-sap-data results, " ++
      "NOT the 'title' field."
  | none =>
    head ++ "SUGGESTION: Use 'discover-sap-data' to find available " ++
      "services.\n" ++
      "REMINDER: Make sure you're using the 'id' field from search " ++
      "results, NOT the 'title' field."

/-- The wrapper the `catch` block puts around a thrown message. -/
def execErrorText (args : ExecuteArgs) (msg : String) : String :=
  "ERROR: Failed to execute " ++ args.operation ++ " operation on " ++
    args.entityName ++ ": " ++ msg

/-- The success description of a `read`, decorated with the `$top` and
`$filter` query options when they are truthy. -/
def readDescription (entityName : String) (qo : List (String × JsVal)) :
    String :=
  let d0 := "Reading " ++ entityName ++ " entities"
  let d1 := match jsObjGet qo "$top" with
    | some v => if v.truthy then d0 ++ " (top " ++ v.render ++ ")" else d0
    | none => d0
  match jsObjGet qo "$filter" with
  | some v => if v.truthy then d1 ++ " with filter: " ++ v.render else d1
  | none => d1

/-- The `switch (operation)` body of `executeEntityOperation` for a resolved
service URL and entity type: either a thrown message, or the operation
description together with the entity-client network call it performs.
`op` is already lower-cased and already validated. -/
def execSwitch (url : String) (et : SapEntityType) (op entityName : String)
    (params : List (String × JsVal)) (qo : List (String × JsVal)) :
    Except String (String × ClientCall) :=
  if op = "read" then
    .ok (readDescription entityName qo,
      .readEntitySet url et.entitySet qo false)
  else if op = "read-single" then
    (buildKeyValue et params).map (fun k =>
      ("Reading single " ++ entityName ++ " with key: " ++ k,
       .readEntity url et.entitySet k false))
  else if op = "create" then
    if ¬ et.creatable then
      .error ("Entity '" ++ entityName ++ "' does not support create " ++
        "operations")
    else
      .ok ("Creating new " ++ entityName, .createEntity url et.entitySet
        params)
  else if op = "update" then
    if ¬ et.updatable then
      .error ("Entity '" ++ entityName ++ "' does not support update " ++
        "operations")
    else
      (buildKeyValue et params).map (fun k =>
        ("Updating " ++ entityName ++ " with key: " ++ k,
         .updateEntity url et.entitySet k
           (params.filter (fun kv => ¬ et.keys.contains kv.1))))
  else
    if ¬ et.deletable then
      .error ("Entity '" ++ entityName ++ "' does not support delete " ++
        "operations")
    else
      (buildKeyValue et params).map (fun k =>
        ("Deleting " ++ entityName ++ " with key: " ++ k,
         .deleteEntity url et.entitySet k))

/-- The body of `executeEntityOperation` after the operation string has been
lower-cased to `op`: operation validation, query-option assembly, service
and entity resolution, client-token configuration and the operation switch.
The raw `args` fields feed only lookups and error texts. -/
def execCore (services : List ODataService) (userToken : Option String)
    (args : ExecuteArgs) (op : String) : ExecOutcome × List ClientCall :=
  if ¬ validOperations.contains op then
    (.error (execErrorText args ("Invalid operation: " ++ op ++
      ". Valid operations are: " ++ String.intercalate ", " validOperations)),
     [])
  else
    match services.find? (fun s => s.id = args.serviceId) with
    | none => (.error (serviceNotFoundText services args.serviceId), [])
    | some service =>
      match service.entityTypes.find? (fun e => e.name = args.entityName) with
      | none =>
        (.error ("ERROR: Entity '" ++ args.entityName ++
          "' not found in service '" ++ args.serviceId ++ "'"), [])
      | some entityType =>
        let useUserToken := args.useUserToken ≠ some false
        let tok : ClientCall :=
          .setUserToken
            (if useUserToken && jsStrTruthy userToken then userToken else none)
        match execSwitch service.url entityType op args.entityName
            args.parameters (buildQueryOptions args) with
        | .ok (d, call) => (.success d, [tok, call])
        | .error msg => (.error (execErrorText args msg), [tok])

/-- `executeEntityOperation(args)`: lower-case the operation, then run the
dispatcher body. -/
def executeEntityOperation (services : List ODataService)
    (userToken : Option String) (args : ExecuteArgs) :
    ExecOutcome × List ClientCall :=
  execCore services userToken args (jsToLower args.operation)

/-- One entry of the environment-variable destination list. -/
structure EnvDest where
  name : String
  url : String
  username : String
  password : String
deriving DecidableEq, Repr

/-- The resolved HTTP destination record. -/
structure HttpDestination where
  url : String
  username : Option String
  password : Option String
  authentication : Option String
deriving DecidableEq, Repr

/-- The ambient state `getDestination` reads: the parsed
`destinations`/`DESTINATIONS` environment list (`none` when unset or
unparsable), the `USER_JWT` environment variable, and the managed
destination-service lookup of the cloud SDK as an oracle from
`(destinationName, jwt)` to an optional destination. -/
structure DestEnv where
  envDestinations : Option (List EnvDest)
  userJwt : Option String
  cloudLookup : String → Option String → Option HttpDestination

/-- Configuration key/value store with `config.get(key, default)`. -/
def cfgGet (cfg : List (String × String)) (key dflt : String) : String :=
  match cfg.find? (fun kv => kv.1 = key) with
  | some kv => kv.2
  | none => dflt

/-- The destination name used for discovery. -/
def discoveryDestinationName (cfg : List (String × String)) : String :=
  cfgGet cfg "sap.discoveryDestinationName"
    (cfgGet cfg "sap.destinationName" "SAP_SYSTEM")

/-- The destination name used for execution. -/
def executionDestinationName (cfg : List (String × String)) : String :=
  cfgGet cfg "sap.executionDestinationName"
    (cfgGet cfg "sap.destinationName" "SAP_SYSTEM")

/-- `jwtToken || fallback` on optional strings (empty strings are falsy). -/
def jsOrStr (a b : Option String) : Option String :=
  match a with
  | some s => if s = "" then b else some s
  | none => b

/-- `getJWT()`: `process.env.USER_JWT || undefined`. -/
def getJWT (env : DestEnv) : Option String :=
  match env.userJwt with
  | some s => if s = "" then none else some s
  | none => none

/-- `getDestination(destinationName, jwtToken?)`. Besides the result it
reports the `(name, jwt)` pair handed to the managed cloud lookup, when that
path was taken. -/
def getDestinationImpl (env : DestEnv) (destinationName : String)
    (jwtToken : Option String) :
    Except String HttpDestination × Option (String × Option String) :=
  let cloudPath :=
    let jwt := jsOrStr jwtToken (getJWT env)
    match env.cloudLookup destinationName jwt with
    | some d => (Except.ok d, some (destinationName, jwt))
    | none =>
      (Except.error ("Destination '" ++ destinationName ++
        "' not found in environment variables or BTP destination service"),
       some (destinationName, jwt))
  match env.envDestinations with
  | some dests =>
    match dests.find? (fun d => d.name = destinationName) with
    | some d =>
      (.ok { url := d.url, username := some d.username,
             password := some d.password,
             authentication := some "BasicAuthentication" }, none)
    | none =>
      match dests with
      | [single] =>
        (.ok { url := single.url, username := some single.username,
               password := some single.password,
               authentication := some "BasicAuthentication" }, none)
      | _ => cloudPath
  | none => cloudPath

/-- `getDiscoveryDestination()`: resolve the discovery destination name with
no caller-supplied JWT. -/
def getDiscoveryDestination (env : DestEnv) (cfg : List (String × String)) :
    Except String HttpDestination × Option (String × Option String) :=
  getDestinationImpl env (discoveryDestinationName cfg) none

/-- `getExecutionDestination(jwtToken?)`: resolve the execution destination
name with the caller-supplied JWT. -/
def getExecutionDestination (env : DestEnv) (cfg : List (String × String))
    (jwtToken : Option String) :
    Except String HttpDestination × Option (String × Option String) :=
  getDestinationImpl env (executionDestinationName cfg) jwtToken

/-! Concrete fixtures used by witnesses and counterexamples. -/

/-- A customer entity: single key `ID`, three properties, not deletable. -/
def custEntity : SapEntityType where
  name := "Customer"
  entitySet := "Customers"
  namespc := "NS"
  keys := ["ID"]
  properties :=
    [{ name := "ID", type := "Edm.String", nullable := false,
       maxLength := some 10 },
     { name := "Name", type := "Edm.String", nullable := true,
       maxLength := none },
     { name := "Email", type := "Edm.String", nullable := true,
       maxLength := none }]
  creatable := true
  updatable := true
  deletable := false

/-- A business-partner service holding `custEntity`. -/
def svcBP : ODataService where
  id := "API_BP"
  title := "Business Partner API"
  description := "Manage customers"
  url := "https://bp"
  entityTypes := [custEntity]

/-- Baseline `execute-sap-operation` arguments on `svcBP`/`custEntity`. -/
def execArgsBase : ExecuteArgs where
  serviceId := "API_BP"
  entityName := "Customer"
  operation := "read"
  parameters := []
  filterString := none
  selectString := none
  expandString := none
  orderbyString := none
  topNumber := none
  skipNumber := none
  queryOptions := []
  useUserToken := none

/-- C1: an execute call whose operation is `create`/`update`/`delete` while
the entity's corresponding capability flag is false returns the capability
error, and the client trace holds no network call at all — the entity
client is never invoked. -/
theorem capability_gate_blocks_write (services : List ODataService)
    (ut : Option String) (args : ExecuteArgs) (svc : ODataService)
    (et : SapEntityType)
    (hs : services.find? (fun s => s.id = args.serviceId) = some svc)
    (he : svc.entityTypes.find? (fun e => e.name = args.entityName) = some et)
    (hop : (jsToLower args.operation = "create" ∧ et.creatable = false) ∨
           (jsToLower args.operation = "update" ∧ et.updatable = false) ∨
           (jsToLower args.operation = "delete" ∧ et.deletable = false)) :
    (executeEntityOperation services ut args).1 =
      .error (execErrorText args ("Entity '" ++ args.entityName ++
        "' does not support " ++ jsToLower args.operation ++ " operations"))
    ∧ ((executeEntityOperation services ut args).2.filter
        ClientCall.isNetwork) = [] := by
  unfold executeEntityOperation execCore execSwitch
  rcases hop with ⟨h1, h2⟩ | ⟨h1, h2⟩ | ⟨h1, h2⟩ <;>
    rw [h1] <;>
    simp [hs, he, h2, validOperations, ClientCall.isNetwork,
      String.append_assoc]

/-- Witness for C1: deleting the non-deletable `Customer` entity fails with
the capability error and performs no network call. -/
theorem capability_gate_blocks_write_witness :
    (executeEntityOperation [svcBP] none
      { execArgsBase with operation := "delete",
                          parameters := [("ID", .str "1")] }).1 =
      .error (execErrorText
        { execArgsBase with operation := "delete",
                            parameters := [("ID", .str "1")] }
        ("Entity '" ++ "Customer" ++ "' does not support " ++ "delete" ++
          " operations"))
    ∧ ((executeEntityOperation [svcBP] none
        { execArgsBase with operation := "delete",
                            parameters := [("ID", .str "1")] }).2.filter
        ClientCall.isNetwork) = [] := by
  have h := capability_gate_blocks_write [svcBP] none
    { execArgsBase with operation := "delete",
                        parameters := [("ID", .str "1")] }
    svcBP custEntity (by decide) (by decide)
    (Or.inr (Or.inr ⟨by decide, by decide⟩))
  exact ⟨by rw [h.1]; decide, h.2⟩

/-- C5: an update that reaches the entity client forwards a payload from
which every declared key property has been removed, keeps every non-key
parameter, and forwards an empty body when the parameters held only keys. -/
theorem update_strips_key_properties (services : List ODataService)
    (ut : Option String) (args : ExecuteArgs) (svc : ODataService)
    (et : SapEntityType) (kv : String)
    (hs : services.find? (fun s => s.id = args.serviceId) = some svc)
    (he : svc.entityTypes.find? (fun e => e.name = args.entityName) = some et)
    (hop : jsToLower args.operation = "update")
    (hupd : et.updatable = true)
    (hk : buildKeyValue et args.parameters = .ok kv) :
    ∃ body,
      ((executeEntityOperation services ut args).2.filter
        ClientCall.isNetwork) = [.updateEntity svc.url et.entitySet kv body]
      ∧ (∀ p ∈ body, p.1 ∉ et.keys)
      ∧ (∀ p ∈ args.parameters, p.1 ∉ et.keys → p ∈ body)
      ∧ ((∀ p ∈ args.parameters, p.1 ∈ et.keys) → body = []) := by
  refine ⟨args.parameters.filter (fun p => ¬ et.keys.contains p.1),
    ?_, ?_, ?_, ?_⟩
  · unfold executeEntityOperation execCore execSwitch
    rw [hop]
    simp [hs, he, hupd, hk, validOperations, ClientCall.isNetwork, Except.map]
  · intro p hp
    simp [List.mem_filter] at hp
    exact hp.2
  · intro p hp hnk
    simp [List.mem_filter]
    exact ⟨hp, hnk⟩
  · intro hall
    simp [List.filter_eq_nil_iff]
    intro a b hab
    exact hall (a, b) hab

/-- Witness for C5: updating `Customer` with only its key `ID` supplied
forwards an update whose body is empty. -/
theorem update_strips_key_properties_witness :
    ((executeEntityOperation [svcBP] none
      { execArgsBase with operation := "update",
                          parameters := [("ID", .str "1")] }).2.filter
      ClientCall.isNetwork) =
      [.updateEntity "https://bp" "Customers" "1" []] := by
  obtain ⟨body, htr, -, -, hempty⟩ := update_strips_key_properties [svcBP]
    none
    { execArgsBase with operation := "update",
                        parameters := [("ID", .str "1")] }
    svcBP custEntity "1" (by decide) (by decide) (by decide) (by decide)
    (by rfl)
  rw [htr, hempty]
  · decide
  · intro p hp
    simp at hp
    rw [hp]
    decide

/-- Helper: `execCore` reads the raw `operation` field only for error texts,
so changing it (with the lower-cased `op` fixed) preserves the client trace
and the success outcome. -/
theorem execCore_operation_field (services : List ODataService)
    (ut : Option String) (args : ExecuteArgs) (x op : String) :
    ((execCore services ut { args with operation := x } op).2 =
      (execCore services ut args op).2)
    ∧ ∀ d, ((execCore services ut { args with operation := x } op).1 =
        .success d ↔ (execCore services ut args op).1 = .success d) := by
  obtain ⟨sid, en, oper, params, fs, ss, es, os, tn, sn, qo, uut⟩ := args
  unfold execCore
  rw [show buildQueryOptions
      ⟨sid, en, x, params, fs, ss, es, os, tn, sn, qo, uut⟩ =
    buildQueryOptions ⟨sid, en, oper, params, fs, ss, es, os, tn, sn, qo, uut⟩
    from rfl]
  by_cases hv : op ∈ validOperations
  · cases hsv : services.find? (fun s => s.id = sid) with
    | none => simp [hv, hsv]
    | some svc =>
      cases het : svc.entityTypes.find? (fun e => e.name = en) with
      | none => simp [hv, hsv, het]
      | some et =>
        cases hsw : execSwitch svc.url et op en params
            (buildQueryOptions
              ⟨sid, en, oper, params, fs, ss, es, os, tn, sn, qo, uut⟩) with
        | ok pr => simp [hv, hsv, het, hsw]
        | error m => simp [hv, hsv, het, hsw]
  · simp [hv]

/-- C10: the operation name is matched case-insensitively. An operation
whose lower-casing is outside the enumerated set yields the validation
error naming the allowed operations (and nothing else happens); and any two
spellings with the same lower-casing produce the same client trace and the
same success outcome. -/
theorem operation_matched_case_insensitively (services : List ODataService)
    (ut : Option String) (args : ExecuteArgs) (op' : String)
    (h : jsToLower op' = jsToLower args.operation) :
    ((jsToLower args.operation ∉ validOperations →
      executeEntityOperation services ut args =
        (.error (execErrorText args ("Invalid operation: " ++
          jsToLower args.operation ++ ". Valid operations are: " ++
          String.intercalate ", " validOperations)), [])))
    ∧ ((executeEntityOperation services ut
        { args with operation := op' }).2 =
       (executeEntityOperation services ut args).2)
    ∧ ∀ d, ((executeEntityOperation services ut
        { args with operation := op' }).1 = .success d ↔
        (executeEntityOperation services ut args).1 = .success d) := by
  refine ⟨?_, ?_, ?_⟩
  · intro hnv
    unfold executeEntityOperation execCore
    simp [hnv]
  · have hrw : executeEntityOperation services ut
        { args with operation := op' } =
        execCore services ut { args with operation := op' }
          (jsToLower args.operation) := by
      unfold executeEntityOperation
      rw [show ({ args with operation := op' } : ExecuteArgs).operation = op'
        from rfl, h]
    rw [hrw]
    exact (execCore_operation_field services ut args op'
      (jsToLower args.operation)).1
  · have hrw : executeEntityOperation services ut
        { args with operation := op' } =
        execCore services ut { args with operation := op' }
          (jsToLower args.operation) := by
      unfold executeEntityOperation
      rw [show ({ args with operation := op' } : ExecuteArgs).operation = op'
        from rfl, h]
    rw [hrw]
    exact (execCore_operation_field services ut args op'
      (jsToLower args.operation)).2

/-- Witness for C10: `READ` behaves exactly as `read`, and the unknown
operation `xyz` yields the validation error naming the allowed set. -/
theorem operation_matched_case_insensitively_witness :
    ((executeEntityOperation [svcBP] none
      { execArgsBase with operation := "READ" }).2 =
     (executeEntityOperation [svcBP] none execArgsBase).2)
    ∧ (executeEntityOperation [svcBP] none
        { execArgsBase with operation := "xyz" }).1 =
      .error (execErrorText { execArgsBase with operation := "xyz" }
        ("Invalid operation: xyz. Valid operations are: " ++
          "read, read-single, create, update, delete")) := by
  constructor
  · exact (operation_matched_case_insensitively [svcBP] none execArgsBase
      "READ" (by decide)).2.1
  · have h := (operation_matched_case_insensitively [svcBP] none
      { execArgsBase with operation := "xyz" } "xyz" rfl).1 (by decide)
    rw [h]
    decide

/-- The amended claim's reading of `buildKeyValue`: walk the key properties
in property-declaration order; fail on the first missing one, naming all
required keys; render a single key raw and a composite key as
`name='value'` parts joined with commas. -/
def buildKeyValueSpec (e : SapEntityType) (params : List (String × JsVal)) :
    Except String String :=
  let orderedKeys :=
    (e.properties.map SapProperty.name).filter (fun n => e.keys.contains n)
  match orderedKeys.find? (fun n => ¬ jsObjHas params n) with
  | some missing => .error (missingKeyMsg missing e.keys)
  | none =>
    match orderedKeys with
    | [k] => .ok (paramRender params k)
    | ks => .ok (String.intercalate "," (ks.map (fun k =>
        k ++ "='" ++ paramRender params k ++ "'")))

/-- Helper: mapping after filtering commutes with filtering the mapped
predicate. -/
theorem filter_map_comm (f : α → β) (p : β → Bool) (l : List α) :
    (l.map f).filter p = (l.filter (fun a => p (f a))).map f := by
  induction l with
  | nil => rfl
  | cons a t ih =>
    by_cases h : p (f a) = true <;> simp [h, ih]

/-- Helper: the effectful `map` of `buildKeyValue` over the key properties
is the first missing name when one exists, and the rendered parts
otherwise. -/
theorem mapM_keyParts (params : List (String × JsVal)) (keys : List String)
    (kps : List SapProperty) :
    (kps.mapM (fun p =>
      if jsObjHas params p.name then
        Except.ok (p.name ++ "='" ++ paramRender params p.name ++ "'")
      else Except.error (missingKeyMsg p.name keys)))
    = match (kps.map SapProperty.name).find?
        (fun n => ¬ jsObjHas params n) with
      | some m => .error (missingKeyMsg m keys)
      | none => .ok (kps.map (fun p =>
          p.name ++ "='" ++ paramRender params p.name ++ "'")) := by
  induction kps with
  | nil => rfl
  | cons p t ih =>
    by_cases h : jsObjHas params p.name
    · simp only [List.mapM_cons, h, if_true, List.map_cons, List.find?_cons,
        Bool.not_true, ih]
      cases hf : (t.map SapProperty.name).find? (fun n => ¬ jsObjHas params n)
        <;> simp only [hf, h] <;> rfl
    · simp only [List.mapM_cons, h, if_false, List.map_cons, List.find?_cons]
      rfl

/-- Helper: `buildKeyValue` agrees with the order-explicit description
`buildKeyValueSpec` on every input. -/
theorem buildKeyValue_eq_spec (e : SapEntityType)
    (params : List (String × JsVal)) :
    buildKeyValue e params = buildKeyValueSpec e params := by
  unfold buildKeyValue buildKeyValueSpec
  rw [filter_map_comm SapProperty.name (fun n => e.keys.contains n)
    e.properties]
  cases hk : e.properties.filter (fun p => e.keys.contains p.name) with
  | nil => simp only [hk]; rfl
  | cons kp t =>
    cases t with
    | nil =>
      simp only [hk, List.map_cons, List.map_nil, List.find?_cons]
      by_cases h : jsObjHas params kp.name <;> simp [h]
    | cons kp2 t2 =>
      simp only [hk]
      rw [mapM_keyParts params e.keys]
      cases hf : ((kp :: kp2 :: t2).map SapProperty.name).find?
          (fun n => ¬ jsObjHas params n) <;>
        simp [hf, List.map_map, Function.comp_def, Except.map]

/-- C2 (amended): under the catalog invariants (distinct property names,
distinct keys, keys declared among the properties), `buildKeyValue` renders
exactly the declared keys, but composite parts follow the
property-declaration order rather than the keys-list order; a single
declared key returns the stringified raw value, and any missing key fails
with the error naming all required keys. -/
theorem buildKeyValue_amended (e : SapEntityType)
    (params : List (String × JsVal))
    (hnd : (e.properties.map SapProperty.name).Nodup)
    (hknd : e.keys.Nodup)
    (hsub : ∀ k ∈ e.keys, k ∈ e.properties.map SapProperty.name) :
    buildKeyValue e params = buildKeyValueSpec e params
    ∧ ((e.properties.map SapProperty.name).filter
        (fun n => e.keys.contains n)).Perm e.keys
    ∧ (∀ k, e.keys = [k] →
        (jsObjHas params k →
          buildKeyValue e params = .ok (paramRender params k))
        ∧ (¬ jsObjHas params k →
          buildKeyValue e params = .error (missingKeyMsg k e.keys)))
    ∧ ((∃ k ∈ e.keys, ¬ jsObjHas params k) →
        ∃ k₀ ∈ e.keys,
          buildKeyValue e params = .error (missingKeyMsg k₀ e.keys)) := by
  have hperm : ((e.properties.map SapProperty.name).filter
      (fun n => e.keys.contains n)).Perm e.keys := by
    rw [List.perm_ext_iff_of_nodup (hnd.filter _) hknd]
    intro a
    simp only [List.mem_filter, List.elem_eq_mem, decide_eq_true_eq]
    exact ⟨fun h => h.2, fun h => ⟨hsub a h, h⟩⟩
  refine ⟨buildKeyValue_eq_spec e params, hperm, ?_, ?_⟩
  · intro k hk1
    have horder : (e.properties.map SapProperty.name).filter
        (fun n => e.keys.contains n) = [k] := by
      rw [← List.perm_singleton]
      exact hperm.trans (hk1 ▸ List.Perm.refl e.keys)
    constructor <;> intro h <;>
      rw [buildKeyValue_eq_spec] <;>
      unfold buildKeyValueSpec <;>
      simp only [horder, List.find?_cons] <;>
      simp [h]
  · rintro ⟨k, hk, hmiss⟩
    rw [buildKeyValue_eq_spec]
    unfold buildKeyValueSpec
    cases hf : ((e.properties.map SapProperty.name).filter
        (fun n => e.keys.contains n)).find?
        (fun n => ¬ jsObjHas params n) with
    | none =>
      exfalso
      have hmemf : k ∈ (e.properties.map SapProperty.name).filter
          (fun n => e.keys.contains n) := hperm.mem_iff.mpr hk
      have := List.find?_eq_none.mp hf k hmemf
      simp [hmiss] at this
    | some m =>
      have hmem := List.mem_of_find?_eq_some hf
      refine ⟨m, hperm.mem_iff.mp hmem, ?_⟩
      simp only [hf]

deriving instance DecidableEq for Except

/-- An entity whose declared key order (`B` before `A`) differs from its
property declaration order (`A` before `B`); the data-model invariants
(keys distinct and declared among the distinct property names) hold. -/
def entSwapKeys : SapEntityType where
  name := "Pair"
  entitySet := "Pairs"
  namespc := "NS"
  keys := ["B", "A"]
  properties :=
    [{ name := "A", type := "Edm.String", nullable := false,
       maxLength := none },
     { name := "B", type := "Edm.String", nullable := false,
       maxLength := none }]
  creatable := true
  updatable := true
  deletable := true

/-- Parameters supplying both keys of `entSwapKeys`. -/
def paramsSwap : List (String × JsVal) := [("A", .str "1"), ("B", .str "2")]

/-- Counterexample for C2: with keys declared `["B","A"]` but properties
declared `A` before `B`, `buildKeyValue` renders `A='1',B='2'` — the
property-declaration order — while rendering in the declared-keys-list
order, as the claim states, would give `B='2',A='1'`. -/
theorem buildKeyValue_key_order_counterexample :
    buildKeyValue entSwapKeys paramsSwap = .ok "A='1',B='2'"
    ∧ (Except.ok (ε := String) (String.intercalate ","
        (entSwapKeys.keys.map (fun k =>
          k ++ "='" ++ paramRender paramsSwap k ++ "'")))) =
      .ok "B='2',A='1'"
    ∧ buildKeyValue entSwapKeys paramsSwap ≠
      (Except.ok (ε := String) (String.intercalate ","
        (entSwapKeys.keys.map (fun k =>
          k ++ "='" ++ paramRender paramsSwap k ++ "'"))))
    ∧ entSwapKeys.keys.Nodup
    ∧ (entSwapKeys.properties.map SapProperty.name).Nodup
    ∧ (∀ k ∈ entSwapKeys.keys,
        k ∈ entSwapKeys.properties.map SapProperty.name) :=
  ⟨by decide, by decide, by decide, by decide, by decide, by decide⟩

/-- Witness for the amended C2: the refinement holds at the composite-key
fixture, and a single-key entity with the key absent fails naming the
required key. -/
theorem buildKeyValue_amended_witness :
    buildKeyValue entSwapKeys paramsSwap = buildKeyValueSpec entSwapKeys
      paramsSwap
    ∧ buildKeyValue custEntity [] = .error (missingKeyMsg "ID"
        custEntity.keys) :=
  ⟨(buildKeyValue_amended entSwapKeys paramsSwap (by decide) (by decide)
      (by decide)).1,
   ((buildKeyValue_amended custEntity [] (by decide) (by decide)
      (by decide)).2.2.1 "ID" rfl).2 (by decide)⟩

/-- Helper: whenever `getDestination` consults the managed cloud lookup, it
does so under its own destination name and with the caller JWT or, absent
one, the `USER_JWT` environment fallback. -/
theorem getDestinationImpl_lookup (env : DestEnv) (name : String)
    (jwtToken : Option String) :
    ∀ p, (getDestinationImpl env name jwtToken).2 = some p →
      p.1 = name ∧ p.2 = jsOrStr jwtToken (getJWT env) := by
  intro p
  unfold getDestinationImpl
  cases hE : env.envDestinations with
  | none =>
    cases hc : env.cloudLookup name (jsOrStr jwtToken (getJWT env)) <;>
      simp [hc] <;> (rintro rfl; exact ⟨rfl, rfl⟩)
  | some dests =>
    cases hf : dests.find? (fun d => d.name = name) with
    | some d => simp [hf]
    | none =>
      match dests with
      | [] =>
        cases hc : env.cloudLookup name (jsOrStr jwtToken (getJWT env)) <;>
          simp [hf, hc] <;> (rintro rfl; exact ⟨rfl, rfl⟩)
      | [single] => simp [hf]
      | d1 :: d2 :: rest =>
        cases hc : env.cloudLookup name (jsOrStr jwtToken (getJWT env)) <;>
          simp [hf, hc] <;> (rintro rfl; exact ⟨rfl, rfl⟩)

/-- A managed lookup whose answer depends on whether a JWT is attached. -/
def jwtSensitiveLookup : String → Option String → Option HttpDestination :=
  fun _ jwt =>
    some { url := match jwt with
             | some _ => "https://user-route"
             | none => "https://tech-route"
           username := none, password := none, authentication := none }

/-- Ambient state with the `USER_JWT` environment variable set. -/
def envWithUserJwt : DestEnv where
  envDestinations := none
  userJwt := some "USERTOKEN"
  cloudLookup := jwtSensitiveLookup

/-- The same ambient state with `USER_JWT` unset. -/
def envWithoutUserJwt : DestEnv where
  envDestinations := none
  userJwt := none
  cloudLookup := jwtSensitiveLookup

/-- Counterexample for C7: two discovery resolutions of the same destination
name that differ only in the presence of the `USER_JWT` end-user token reach
the managed lookup with different credentials and yield different
endpoints; the run with `USER_JWT` set attaches that token. -/
theorem discovery_destination_counterexample :
    (getDiscoveryDestination envWithUserJwt []).1 =
      .ok { url := "https://user-route", username := none, password := none,
            authentication := none }
    ∧ (getDiscoveryDestination envWithoutUserJwt []).1 =
      .ok { url := "https://tech-route", username := none, password := none,
            authentication := none }
    ∧ (getDiscoveryDestination envWithUserJwt []).1 ≠
      (getDiscoveryDestination envWithoutUserJwt []).1
    ∧ (getDiscoveryDestination envWithUserJwt []).2 =
      some ("SAP_SYSTEM", some "USERTOKEN") :=
  ⟨rfl, rfl, by decide, rfl⟩

/-- C7 (amended): `getDiscoveryDestination` passes no caller-supplied
end-user token — any lookup it performs carries exactly the ambient
`USER_JWT` fallback, and is therefore independent of the caller token `t`
that an execution resolution with the same state would attach. -/
theorem discovery_destination_amended (env : DestEnv)
    (cfg : List (String × String)) (t : Option String) :
    getDiscoveryDestination env cfg =
      getDestinationImpl env (discoveryDestinationName cfg) none
    ∧ (∀ p, (getDiscoveryDestination env cfg).2 = some p →
        p.1 = discoveryDestinationName cfg ∧ p.2 = getJWT env)
    ∧ (∀ p, (getExecutionDestination env cfg t).2 = some p →
        p.2 = jsOrStr t (getJWT env)) := by
  refine ⟨rfl, ?_, ?_⟩
  · intro p hp
    exact getDestinationImpl_lookup env (discoveryDestinationName cfg) none
      p hp
  · intro p hp
    exact (getDestinationImpl_lookup env (executionDestinationName cfg) t
      p hp).2

/-- Witness for the amended C7: in the `USER_JWT` environment the discovery
lookup carries exactly the ambient token, not the caller token. -/
theorem discovery_destination_amended_witness :
    discoveryDestinationName [] = "SAP_SYSTEM"
    ∧ getJWT envWithUserJwt = some "USERTOKEN" := by
  have h := (discovery_destination_amended envWithUserJwt []
    (some "CALLERTOKEN")).2.1 ("SAP_SYSTEM", some "USERTOKEN") rfl
  exact ⟨h.1.symm, h.2.symm⟩

/-- A service with no category keyword and no entities; it is tagged `all`. -/
def svcPlain : ODataService where
  id := "x"
  title := "t"
  description := "d"
  url := "u"
  entityTypes := []

/-- Counterexample for C3: (a) the one-word query `"sales "` (trailing
space) fires tier 2, though it has fewer than 2 whitespace-separated words
— the guard tests for a space character, not a word count; (b) with an
empty query, an in-scope category `sales` and empty tiers 1–2, tier 3 does
not fire, though the claim's condition (prior tiers empty, category not
`all`) holds — the guard additionally requires a non-empty query. -/
theorem tier_firing_counterexample :
    ((searchServicesAndEntities []
        { query := some "sales ", category := none, limit := none
        }).tier2Fired = true
      ∧ (splitWords "sales ").length = 1)
    ∧ ((searchServicesAndEntities [svcPlain]
        { query := some "", category := some "sales", limit := none
        }).tier3Fired = false
      ∧ performCategorySearch [svcPlain] "" "sales" .combined = []
      ∧ (searchServicesAndEntities [svcPlain]
        { query := some "", category := some "sales", limit := none
        }).tier2Fired = false
      ∧ ("sales" : String) ≠ "all") :=
  ⟨⟨by decide, by decide⟩, by decide, by decide, by decide, by decide⟩

/-- C3 (amended): the exact firing conditions. Tier 2 fires iff tier 1 is
empty, the query is non-empty and the query contains a space character;
tier 3 fires iff tiers 1–2 are empty, the category was not already `all`
and the query is non-empty; tier 4 fires iff the query is non-empty and all
prior tiers are empty. -/
theorem tier_firing_amended (services : List ODataService)
    (args : DiscoverArgs) :
    ((searchServicesAndEntities services args).tier2Fired = true ↔
      (performCategorySearch services (argQuery args)
          (validatedCategory args) .combined = []
        ∧ argQuery args ≠ ""
        ∧ strIncludes (argQuery args) " " = true))
    ∧ ((searchServicesAndEntities services args).tier3Fired = true ↔
      (performCategorySearch services (argQuery args)
          (validatedCategory args) .combined = []
        ∧ (strIncludes (argQuery args) " " = true →
            performCategorySearch services (argQuery args)
              (validatedCategory args) .separated = [])
        ∧ validatedCategory args ≠ "all"
        ∧ argQuery args ≠ ""))
    ∧ ((searchServicesAndEntities services args).tier4Fired = true ↔
      (argQuery args ≠ ""
        ∧ performCategorySearch services (argQuery args)
            (validatedCategory args) .combined = []
        ∧ (strIncludes (argQuery args) " " = true →
            performCategorySearch services (argQuery args)
              (validatedCategory args) .separated = [])
        ∧ performCategorySearch services (argQuery args) "all" .combined = []
        ∧ (strIncludes (argQuery args) " " = true →
            performCategorySearch services (argQuery args) "all"
              .separated = []))) := by
  unfold searchServicesAndEntities
  by_cases hq : argQuery args = "" <;>
    by_cases hsp : strIncludes (argQuery args) " " = true <;>
    by_cases h1 : performCategorySearch services (argQuery args)
      (validatedCategory args) .combined = [] <;>
    by_cases h2 : performCategorySearch services (argQuery args)
      (validatedCategory args) .separated = [] <;>
    by_cases hc : validatedCategory args = "all" <;>
    by_cases h3 : performCategorySearch services (argQuery args) "all"
      .combined = [] <;>
    by_cases h4 : performCategorySearch services (argQuery args) "all"
      .separated = [] <;>
    simp_all [List.isEmpty_iff]

/-- Witness for the amended C3: on the fixture catalog the no-match query
fires tier 4, by the amended firing condition. -/
theorem tier_firing_amended_witness :
    (searchServicesAndEntities [svcBP]
      { query := some "zzzznomatch", category := none, limit := none
      }).tier4Fired = true :=
  (tier_firing_amended [svcBP]
    { query := some "zzzznomatch", category := none, limit := none }).2.2.mpr
    ⟨by decide, by decide, by decide, by decide, by decide⟩

theorem length_insertByScoreDesc (m : SearchMatch) (l : List SearchMatch) :
    (insertByScoreDesc m l).length = l.length + 1 := by
  induction l with
  | nil => rfl
  | cons x xs ih =>
    unfold insertByScoreDesc
    by_cases h : m.score < x.score <;> simp [h, ih]

theorem length_sortByScoreDesc (l : List SearchMatch) :
    (sortByScoreDesc l).length = l.length := by
  induction l with
  | nil => rfl
  | cons x xs ih =>
    unfold sortByScoreDesc at *
    simp [List.foldr_cons, length_insertByScoreDesc, ih]

theorem perm_insertByScoreDesc (m : SearchMatch) (l : List SearchMatch) :
    (insertByScoreDesc m l).Perm (m :: l) := by
  induction l with
  | nil => exact List.Perm.refl _
  | cons x xs ih =>
    unfold insertByScoreDesc
    by_cases h : m.score < x.score
    · simp only [h, if_true]
      exact (ih.cons x).trans (List.Perm.swap m x xs)
    · simp [h]

theorem perm_sortByScoreDesc (l : List SearchMatch) :
    (sortByScoreDesc l).Perm l := by
  induction l with
  | nil => exact List.Perm.refl _
  | cons x xs ih =>
    unfold sortByScoreDesc at *
    simp only [List.foldr_cons]
    exact (perm_insertByScoreDesc x _).trans (ih.cons x)

theorem sorted_insertByScoreDesc (m : SearchMatch) (l : List SearchMatch)
    (h : l.Pairwise (fun a b => b.score ≤ a.score)) :
    (insertByScoreDesc m l).Pairwise (fun a b => b.score ≤ a.score) := by
  induction l with
  | nil => simp [insertByScoreDesc]
  | cons x xs ih =>
    unfold insertByScoreDesc
    rcases List.pairwise_cons.mp h with ⟨hx, hxs⟩
    by_cases hc : m.score < x.score
    · simp only [hc, if_true]
      rw [List.pairwise_cons]
      refine ⟨?_, ih hxs⟩
      intro b hb
      rcases List.mem_cons.mp ((perm_insertByScoreDesc m xs).mem_iff.mp hb)
        with rfl | hbxs
      · omega
      · exact hx b hbxs
    · simp only [hc, if_false]
      rw [List.pairwise_cons]
      refine ⟨?_, h⟩
      intro b hb
      rcases List.mem_cons.mp hb with rfl | hbxs
      · omega
      · have := hx b hbxs
        omega

theorem sorted_sortByScoreDesc (l : List SearchMatch) :
    (sortByScoreDesc l).Pairwise (fun a b => b.score ≤ a.score) := by
  induction l with
  | nil => simp [sortByScoreDesc]
  | cons x xs ih =>
    unfold sortByScoreDesc at *
    simp only [List.foldr_cons]
    exact sorted_insertByScoreDesc x _ ih

theorem filter_insertByScoreDesc (p : SearchMatch → Bool) (m : SearchMatch)
    (l : List SearchMatch)
    (htied : ∀ a b, p a = true → p b = true → a.score = b.score)
    (hsorted : l.Pairwise (fun a b => b.score ≤ a.score)) :
    (insertByScoreDesc m l).filter p =
      (if p m then [m] else []) ++ l.filter p := by
  induction l with
  | nil => by_cases hm : p m <;> simp [insertByScoreDesc, hm]
  | cons x xs ih =>
    rcases List.pairwise_cons.mp hsorted with ⟨hx, hxs⟩
    unfold insertByScoreDesc
    by_cases hc : m.score < x.score
    · simp only [hc, if_true, List.filter_cons]
      rw [ih hxs]
      by_cases hm : p m
      · have hpx : p x = false := by
          by_cases hpx : p x = true
          · exact absurd (htied m x hm hpx) (by omega)
          · simpa using hpx
        simp [hm, hpx]
      · simp [hm]
    · simp only [hc, if_false, List.filter_cons]
      by_cases hm : p m <;> simp [hm]

theorem filter_sortByScoreDesc (p : SearchMatch → Bool)
    (l : List SearchMatch)
    (htied : ∀ a b, p a = true → p b = true → a.score = b.score) :
    (sortByScoreDesc l).filter p = l.filter p := by
  induction l with
  | nil => rfl
  | cons x xs ih =>
    unfold sortByScoreDesc at *
    simp only [List.foldr_cons]
    rw [show List.foldr insertByScoreDesc ([] : List SearchMatch) xs =
      sortByScoreDesc xs from rfl]
    rw [filter_insertByScoreDesc p x _ htied (sorted_sortByScoreDesc xs)]
    rw [show List.filter p (sortByScoreDesc xs) = List.filter p xs from ih,
      List.filter_cons]
    by_cases hm : p x <;> simp [hm]

theorem sortByScoreDesc_of_sorted (l : List SearchMatch)
    (h : l.Pairwise (fun a b => b.score ≤ a.score)) :
    sortByScoreDesc l = l := by
  induction l with
  | nil => rfl
  | cons x xs ih =>
    rcases List.pairwise_cons.mp h with ⟨hx, hxs⟩
    unfold sortByScoreDesc at *
    simp only [List.foldr_cons]
    rw [show List.foldr insertByScoreDesc ([] : List SearchMatch) xs =
      xs from ih hxs]
    cases xs with
    | nil => rfl
    | cons y ys =>
      unfold insertByScoreDesc
      have : ¬ x.score < y.score := by
        have := hx y (by simp)
        omega
      simp [this]

/-- C9: the match list is sorted by score descending, and the sort is
stable — for every score, the matches of that score appear in exactly the
original catalog push order of `performCategorySearch`. -/
theorem sort_stable_descending (services : List ODataService)
    (args : DiscoverArgs) :
    (searchServicesAndEntities services args).sortedMatches.Pairwise
      (fun a b => b.score ≤ a.score)
    ∧ ∀ s : Nat,
      (searchServicesAndEntities services args).sortedMatches.filter
          (fun m => m.score == s) =
        (searchServicesAndEntities services args).rawMatches.filter
          (fun m => m.score == s) := by
  constructor
  · rw [show (searchServicesAndEntities services args).sortedMatches =
      sortByScoreDesc ((searchServicesAndEntities services args).rawMatches)
      from rfl]
    exact sorted_sortByScoreDesc _
  · intro s
    rw [show (searchServicesAndEntities services args).sortedMatches =
      sortByScoreDesc ((searchServicesAndEntities services args).rawMatches)
      from rfl]
    refine filter_sortByScoreDesc _ _ ?_
    intro a b ha hb
    have ha' : a.score = s := by simpa using ha
    have hb' : b.score = s := by simpa using hb
    omega

/-- Helper: a positive `slice(0, n)` keeps `min n length` elements. -/
theorem jsSlice_length_of_pos (l : List α) (n : Int) (h : 1 ≤ n) :
    (jsSlice l n).length = min n.toNat l.length := by
  unfold jsSlice
  rw [if_pos (by omega)]
  simp [List.length_take]

/-- C8 (amended): the limit is not clamped but validated — the input schema
rejects any supplied limit outside `[1, 20]`, and a schema-valid call
proceeds with the supplied limit (default 10 when absent, since the
handler's `|| 10` only triggers on absent or zero limits, and 0 is
schema-rejected); the retained matches number `min limit totalFound`, hence
never exceed 20 and are at least 1 whenever any match exists. -/
theorem limit_amended (services : List ODataService) (args : DiscoverArgs)
    (h : discoverArgsValid args = true) :
    ∃ out, discoverCall services args = .ok out
      ∧ out.showing = min (argLimit args).toNat out.totalFound
      ∧ out.showing ≤ 20
      ∧ (1 ≤ out.totalFound → 1 ≤ out.showing)
      ∧ (args.limit = none → argLimit args = 10)
      ∧ 1 ≤ argLimit args ∧ argLimit args ≤ 20 := by
  have hl : 1 ≤ argLimit args ∧ argLimit args ≤ 20 := by
    unfold discoverArgsValid at h
    cases hL : args.limit with
    | none => simp [argLimit, hL]
    | some l =>
      rw [hL] at h
      simp at h
      have hz : l ≠ 0 := by omega
      simp [argLimit, hL, hz]
      omega
  refine ⟨searchServicesAndEntities services args,
    by simp [discoverCall, h], ?_, ?_, ?_,
    fun hnone => by simp [argLimit, hnone], hl⟩
  · unfold searchServicesAndEntities
    simp only []
    exact jsSlice_length_of_pos _ _ hl.1
  · unfold searchServicesAndEntities
    simp only []
    rw [jsSlice_length_of_pos _ _ hl.1]
    have h20 : (argLimit args).toNat ≤ 20 := by omega
    exact le_trans (Nat.min_le_left _ _) h20
  · unfold searchServicesAndEntities
    simp only []
    rw [jsSlice_length_of_pos _ _ hl.1]
    intro h1
    have h1' : 1 ≤ (argLimit args).toNat := by omega
    exact Nat.le_min.mpr ⟨h1', h1⟩

/-- Counterexample for C8: a supplied limit of 30 is rejected by the schema
— the call produces no (clamped) result at all; inside the handler a
negative limit retains 0 of 1 matches (violating the claimed lower bound
of 1), and a limit of 0 falls back to 10, not to the claimed clamp of 1. -/
theorem limit_counterexample :
    discoverCall [svcBP] { query := none, category := none, limit := some 30 }
      = .error "Invalid arguments: limit must be between 1 and 20"
    ∧ (searchServicesAndEntities [svcBP]
        { query := none, category := none, limit := some (-1) }).totalFound
      = 1
    ∧ (searchServicesAndEntities [svcBP]
        { query := none, category := none, limit := some (-1) }).showing = 0
    ∧ argLimit { query := none, category := none, limit := some 0 } = 10
    ∧ (10 : Int) ≠ 1 :=
  ⟨by decide, by decide, by decide, by decide, by decide⟩

/-- Witness for the amended C8: an absent limit defaults to 10 and retains
the single available match. -/
theorem limit_amended_witness :
    discoverCall [svcBP] { query := none, category := none, limit := none } =
      .ok (searchServicesAndEntities [svcBP]
        { query := none, category := none, limit := none })
    ∧ (searchServicesAndEntities [svcBP]
        { query := none, category := none, limit := none }).showing = 1 := by
  obtain ⟨out, hok, hshow, -, hone, -, -⟩ := limit_amended [svcBP]
    { query := none, category := none, limit := none } (by decide)
  have hd : discoverCall [svcBP]
      { query := none, category := none, limit := none } =
      .ok (searchServicesAndEntities [svcBP]
        { query := none, category := none, limit := none }) := by
    simp [discoverCall, discoverArgsValid]
  have hout : out = searchServicesAndEntities [svcBP]
      { query := none, category := none, limit := none } :=
    (Except.ok.inj (hd.symm.trans hok)).symm
  subst hout
  exact ⟨hok, by rw [hshow]; decide⟩

/-- Helper: the mapping table has one row per property of every entity of
every match. -/
theorem convertToMappingTable_length (ms : List SearchMatch) :
    (convertToMappingTable ms).length =
      (ms.map (fun m =>
        ((matchEntities m).map (fun e => e.properties.length)).sum)).sum := by
  simp [convertToMappingTable, List.flatMap_def, List.length_flatten,
    List.map_map, Function.comp_def]

/-- Helper: every property of every entity of every match has its row in
the mapping table. -/
theorem convertToMappingTable_mem (ms : List SearchMatch) :
    ∀ m ∈ ms, ∀ e ∈ matchEntities m, ∀ p ∈ e.properties,
      mkMappingRow m.service e p ∈ convertToMappingTable ms := by
  intro m hm e he p hp
  unfold convertToMappingTable
  rw [List.mem_flatMap]
  exact ⟨m, hm, by
    rw [List.mem_flatMap]
    exact ⟨e, he, List.mem_map_of_mem _ hp⟩⟩

/-- Helper: an entity-level match carries exactly the full record of its
catalog entity. -/
theorem entityMatchOf_entities (s : ODataService) (query : String)
    (mode : SearchMode) (et : SapEntityType) (m : SearchMatch)
    (h : entityMatchOf s query mode et = some m) :
    matchEntities m = [entityToInfo et] := by
  unfold entityMatchOf at h
  split at h
  · simp at h
  · rcases Option.some.inj h with rfl
    by_cases hc : entityScoreOf et query mode ≥ 90 <;>
      simp [matchEntities, hc]

/-- Helper: every entity record inside any match of `performCategorySearch`
is the full `entityToInfo` image of a catalog entity. -/
theorem performCategorySearch_entities (services : List ODataService)
    (query category : String) (mode : SearchMode) :
    ∀ m ∈ performCategorySearch services query category mode,
      ∀ e ∈ matchEntities m,
        ∃ s ∈ services, ∃ et ∈ s.entityTypes, e = entityToInfo et := by
  intro m hm e he
  unfold performCategorySearch at hm
  rw [List.mem_flatMap] at hm
  obtain ⟨s, hs, hblock⟩ := hm
  refine ⟨s, hs, ?_⟩
  unfold serviceBlockOf at hblock
  split at hblock
  · simp at hblock
  · rw [List.mem_append] at hblock
    rcases hblock with hsvc | hent
    · split at hsvc
      · rcases List.mem_singleton.mp hsvc with rfl
        simp only [matchEntities] at he
        simp at he
        obtain ⟨et, het, rfl⟩ := he
        exact ⟨et, het, rfl⟩
      · simp at hsvc
    · unfold entityMatchesOf at hent
      split at hent
      · simp at hent
      · rw [List.mem_filterMap] at hent
        obtain ⟨et, het, hsome⟩ := hent
        rw [entityMatchOf_entities s query mode et m hsome] at he
        rcases List.mem_singleton.mp he with rfl
        exact ⟨et, het, rfl⟩

/-- Helper: `slice(0, n)` keeps only elements of the list. -/
theorem jsSlice_subset (l : List α) (n : Int) : ∀ x ∈ jsSlice l n, x ∈ l := by
  intro x hx
  unfold jsSlice at hx
  split at hx <;> exact List.mem_of_mem_take hx

/-- Helper: whichever tier produced the final match list, its entity
records come whole from the catalog. -/
theorem rawMatches_entities (services : List ODataService)
    (args : DiscoverArgs) :
    ∀ m ∈ (searchServicesAndEntities services args).rawMatches,
      ∀ e ∈ matchEntities m,
        ∃ s ∈ services, ∃ et ∈ s.entityTypes, e = entityToInfo et := by
  intro m hm
  unfold searchServicesAndEntities at hm
  simp only [] at hm
  repeat' split at hm
  all_goals exact performCategorySearch_entities _ _ _ _ m hm

/-- C4: the mapping table has exactly one row per (entity, property) pair
of the retained matches — its length is the sum of property counts over all
retained entities, every retained entity's every property appears as a row,
and every retained entity record is the full image of a catalog entity,
never a truncated property subset. -/
theorem mapping_table_complete (services : List ODataService)
    (args : DiscoverArgs) :
    ((searchServicesAndEntities services args).mappingTable.length =
      (((searchServicesAndEntities services args).limitedMatches).map
        (fun m =>
          ((matchEntities m).map (fun e => e.properties.length)).sum)).sum)
    ∧ (∀ m ∈ (searchServicesAndEntities services args).limitedMatches,
        ∀ e ∈ matchEntities m, ∀ p ∈ e.properties,
          mkMappingRow m.service e p ∈
            (searchServicesAndEntities services args).mappingTable)
    ∧ (∀ m ∈ (searchServicesAndEntities services args).limitedMatches,
        ∀ e ∈ matchEntities m,
          ∃ s ∈ services, ∃ et ∈ s.entityTypes, e = entityToInfo et) := by
  refine ⟨?_, ?_, ?_⟩
  · rw [show (searchServicesAndEntities services args).mappingTable =
      convertToMappingTable
        ((searchServicesAndEntities services args).limitedMatches) from rfl]
    exact convertToMappingTable_length _
  · rw [show (searchServicesAndEntities services args).mappingTable =
      convertToMappingTable
        ((searchServicesAndEntities services args).limitedMatches) from rfl]
    exact convertToMappingTable_mem _
  · intro m hm
    have hm' : m ∈ jsSlice
        (sortByScoreDesc
          ((searchServicesAndEntities services args).rawMatches))
        (argLimit args) := hm
    have h1 := jsSlice_subset _ _ m hm'
    have h2 := (perm_sortByScoreDesc
      ((searchServicesAndEntities services args).rawMatches)).mem_iff.mp h1
    exact rawMatches_entities services args m h2

/-- The property-level match that the query `email` produces on `svcBP`. -/
def custEmailMatch : SearchMatch where
  type := .property
  score := 75
  service := { id := "API_BP", title := "Business Partner API" }
  entities := []
  entity := some (entityToInfo custEntity)
  matchReason := "Properties [Email] match 'email'"

/-- Witness for C4: the `email` query on the fixture yields a three-row
table — the full `Customer` property set — including the row for the
non-key `Email` property. -/
theorem mapping_table_complete_witness :
    (searchServicesAndEntities [svcBP]
      { query := some "email", category := none, limit := none
      }).mappingTable.length = 3
    ∧ mkMappingRow custEmailMatch.service (entityToInfo custEntity)
        { name := "Email", type := "Edm.String", nullable := true,
          maxLength := none, isKey := false } ∈
      (searchServicesAndEntities [svcBP]
        { query := some "email", category := none, limit := none
        }).mappingTable := by
  have h := mapping_table_complete [svcBP]
    { query := some "email", category := none, limit := none }
  exact ⟨h.1.trans (by decide),
    h.2.1 custEmailMatch (by decide) (entityToInfo custEntity) (by decide)
      _ (by decide)⟩

/-- Is the service in the requested category (every service is in `all`)? -/
def inCategory (services : List ODataService) (category : String)
    (s : ODataService) : Bool :=
  category == "all" || (serviceCategoriesGet services s.id).contains category

/-- The score-0.5 service match that an empty query produces for every
in-category service. -/
def allServicesMatch (category : String) (s : ODataService) : SearchMatch where
  type := .service
  score := 50
  service := { id := s.id, title := s.title }
  entities := s.entityTypes.map entityToInfo
  entity := none
  matchReason := "Service in category '" ++ category ++ "'"

/-- Helper: with an empty query the search returns exactly one full-schema
service match per in-category service, in catalog order. -/
theorem performCategorySearch_empty_query (services : List ODataService)
    (category : String) (mode : SearchMode) :
    performCategorySearch services "" category mode =
      (services.filter (inCategory services category)).map
        (allServicesMatch category) := by
  unfold performCategorySearch
  have key : ∀ l : List ODataService,
      l.flatMap (fun s => serviceBlockOf services s "" category mode) =
        (l.filter (inCategory services category)).map
          (allServicesMatch category) := by
    intro l
    induction l with
    | nil => rfl
    | cons s t ih =>
      rw [List.flatMap_cons, List.filter_cons, ih]
      by_cases hc : inCategory services category s = true
      · rw [if_pos hc, List.map_cons]
        unfold serviceBlockOf
        rw [if_neg (by
          unfold inCategory at hc
          simp at hc
          rintro ⟨hne, hnc⟩
          rcases hc with hall | hcont
          · exact hne hall
          · exact hnc (by simpa using hcont))]
        simp [serviceScoreOf, entityMatchesOf, allServicesMatch]
      · rw [if_neg hc]
        have : serviceBlockOf services s "" category mode = [] := by
          unfold serviceBlockOf
          rw [if_pos (by
            unfold inCategory at hc
            simp at hc
            exact ⟨hc.1, by simpa using hc.2⟩)]
        rw [this, List.nil_append]
  exact key services

/-- Helper: when tier 4 fired, the final match list is the empty-query scan
of the resolved category. -/
theorem rawMatches_of_tier4 (services : List ODataService)
    (args : DiscoverArgs)
    (h4 : (searchServicesAndEntities services args).tier4Fired = true) :
    (searchServicesAndEntities services args).rawMatches =
      performCategorySearch services ""
        (searchServicesAndEntities services args).actualCategory
        .combined := by
  unfold searchServicesAndEntities at h4 ⊢
  simp only [] at h4 ⊢
  rw [h4]
  simp

/-- Helper: a schema-valid call has a positive effective limit. -/
theorem argLimit_pos (args : DiscoverArgs)
    (h : discoverArgsValid args = true) : 1 ≤ argLimit args := by
  unfold discoverArgsValid at h
  cases hL : args.limit with
  | none => simp [argLimit, hL]
  | some l =>
    rw [hL] at h
    simp at h
    have hz : l ≠ 0 := by omega
    simp [argLimit, hL, hz]
    omega

/-- C6 (amended): when every earlier tier came up empty for a non-empty
query, the engine returns every service in the resolved category — ignoring
the query — flagged with `returnedAllServices` and `usedCategoryFallback`;
the mapping table is non-empty provided the first in-category service has
an entity with at least one property (with entity-less services it can be
empty); and the no-match path is a normal result, not an error. -/
theorem tier4_fallback_amended (services : List ODataService)
    (args : DiscoverArgs)
    (hvalid : discoverArgsValid args = true)
    (h4 : (searchServicesAndEntities services args).tier4Fired = true) :
    (searchServicesAndEntities services args).returnedAllServices = true
    ∧ (searchServicesAndEntities services args).usedCategoryFallback = true
    ∧ (searchServicesAndEntities services args).rawMatches =
        (services.filter (inCategory services
          (searchServicesAndEntities services args).actualCategory)).map
          (allServicesMatch
            (searchServicesAndEntities services args).actualCategory)
    ∧ (∀ s0 rest,
        services.filter (inCategory services
          (searchServicesAndEntities services args).actualCategory) =
          s0 :: rest →
        (∃ e ∈ s0.entityTypes, e.properties ≠ []) →
        (searchServicesAndEntities services args).mappingTable ≠ []) := by
  have hraw : (searchServicesAndEntities services args).rawMatches =
      (services.filter (inCategory services
        (searchServicesAndEntities services args).actualCategory)).map
        (allServicesMatch
          (searchServicesAndEntities services args).actualCategory) :=
    (rawMatches_of_tier4 services args h4).trans
      (performCategorySearch_empty_query services _ .combined)
  refine ⟨h4, ?_, hraw, ?_⟩
  · have e3 : (searchServicesAndEntities services args).usedCategoryFallback
        = ((searchServicesAndEntities services args).tier3Fired ||
           (searchServicesAndEntities services args).tier4Fired) := rfl
    rw [e3, h4, Bool.or_true]
  · rintro s0 rest hfil ⟨e0, he0, hprops⟩
    have hscores : ∀ m ∈ (searchServicesAndEntities services args).rawMatches,
        m.score = 50 := by
      intro m hm
      rw [hraw] at hm
      rw [List.mem_map] at hm
      obtain ⟨s, -, rfl⟩ := hm
      rfl
    have hsorted : (searchServicesAndEntities services
        args).rawMatches.Pairwise (fun a b => b.score ≤ a.score) :=
      List.pairwise_of_forall_mem_list (fun a ha b hb => by
        rw [hscores a ha, hscores b hb])
    have hsort_eq : sortByScoreDesc
        ((searchServicesAndEntities services args).rawMatches) =
        (searchServicesAndEntities services args).rawMatches :=
      sortByScoreDesc_of_sorted _ hsorted
    have hcons : (searchServicesAndEntities services args).rawMatches =
        allServicesMatch
          ((searchServicesAndEntities services args).actualCategory) s0 ::
          rest.map (allServicesMatch
            ((searchServicesAndEntities services args).actualCategory)) := by
      rw [hraw, hfil, List.map_cons]
    have hlim := argLimit_pos args hvalid
    have hmem0 : allServicesMatch
        ((searchServicesAndEntities services args).actualCategory) s0 ∈
        (searchServicesAndEntities services args).limitedMatches := by
      rw [show (searchServicesAndEntities services args).limitedMatches =
        jsSlice (sortByScoreDesc
          ((searchServicesAndEntities services args).rawMatches))
          (argLimit args) from rfl]
      rw [hsort_eq, hcons]
      unfold jsSlice
      rw [if_pos (by omega)]
      cases hn : (argLimit args).toNat with
      | zero => omega
      | succ k =>
        rw [List.take_succ_cons]
        exact List.mem_cons_self _ _
    obtain ⟨p0, hp0⟩ := List.exists_mem_of_ne_nil _ hprops
    have hrow := convertToMappingTable_mem
      ((searchServicesAndEntities services args).limitedMatches)
      _ hmem0 (entityToInfo e0) (by
        unfold allServicesMatch matchEntities
        simp only [if_pos rfl]
        exact List.mem_map_of_mem _ he0)
      ({ name := p0.name, type := p0.type, nullable := p0.nullable,
         maxLength := p0.maxLength,
         isKey := e0.keys.contains p0.name } : PropInfo) (by
        unfold entityToInfo
        simp only []
        exact List.mem_map_of_mem _ hp0)
    rw [show convertToMappingTable
      ((searchServicesAndEntities services args).limitedMatches) =
      (searchServicesAndEntities services args).mappingTable from rfl] at hrow
    exact List.ne_nil_of_mem hrow

/-- Counterexample for C6: on a non-empty catalog whose only service has no
entities, the no-match query returns `returnedAllServices = true` with one
match yet an empty mapping table, against the claim's non-empty table. -/
theorem tier4_fallback_counterexample :
    (searchServicesAndEntities [svcPlain]
      { query := some "zzzznomatch", category := none, limit := none
      }).returnedAllServices = true
    ∧ (searchServicesAndEntities [svcPlain]
      { query := some "zzzznomatch", category := none, limit := none
      }).totalFound = 1
    ∧ (searchServicesAndEntities [svcPlain]
      { query := some "zzzznomatch", category := none, limit := none
      }).mappingTable = [] :=
  ⟨by decide, by decide, by decide⟩

/-- Witness for the amended C6: the fixture catalog yields the fallback
flag and a non-empty mapping table for a no-match query. -/
theorem tier4_fallback_amended_witness :
    (searchServicesAndEntities [svcBP]
      { query := some "zzzznomatch", category := none, limit := none
      }).returnedAllServices = true
    ∧ (searchServicesAndEntities [svcBP]
      { query := some "zzzznomatch", category := none, limit := none
      }).mappingTable ≠ [] := by
  have h := tier4_fallback_amended [svcBP]
    { query := some "zzzznomatch", category := none, limit := none }
    (by decide) (by decide)
  exact ⟨h.1, h.2.2.2 svcBP [] (by decide)
    ⟨custEntity, by decide, by decide⟩⟩

/-- Witness for C9: the sorted match list of a concrete discovery call is
descending by score with original order preserved on ties. -/
theorem sort_stable_descending_witness :
    (searchServicesAndEntities [svcBP]
      { query := some "email", category := none, limit := none
      }).sortedMatches.Pairwise (fun a b => b.score ≤ a.score) :=
  (sort_stable_descending [svcBP]
    { query := some "email", category := none, limit := none }).1
